import Mathlib

/-!
Shallow embedding of the jiralert alert dispatch pipeline.

Source of truth: `cmd/jiralert/main.go` — the `/alert` HTTP handler
(lines 64-107), `errorHandler` (lines 126-145) and the `/healthz`
handler (line 111).  The collaborator packages `pkg/config`,
`pkg/alertmanager` and `pkg/notify` are not part of the sources here;
they are modelled from the spec as oracles whose observed outcome is an
input of the handler function.  HTTP status codes are the numeric values
of the Go `net/http` constants (`StatusBadRequest` = 400, `StatusNotFound`
= 404, `StatusInternalServerError` = 500, `StatusServiceUnavailable` = 503,
`StatusOK` = 200).
-/

/-- An alert record (spec, section 3): a status ("firing" or "resolved"),
labels, annotations and timing fields.  Mirrors the alertmanager payload
schema consumed by `alertmanager.Data`. -/
structure Alert where
  status : String
  labels : List (String × String)
  annotations : List (String × String)
  startsAt : String
  endsAt : String
  deriving DecidableEq, Repr

/-- The decoded alert batch, `alertmanager.Data`: a receiver name, the
group labels (used only for diagnostics) and the ordered alert list. -/
structure Data where
  receiver : String
  groupLabels : List (String × String)
  alerts : List Alert
  deriving DecidableEq, Repr

/-- A receiver configuration: a unique name plus notification-target
parameters that the dispatcher treats as opaque data. -/
structure ReceiverConfig where
  name : String
  params : List (String × String)
  deriving DecidableEq, Repr

/-- The loaded configuration: the set of configured receivers. -/
structure Config where
  receivers : List ReceiverConfig
  deriving DecidableEq, Repr

/-- Modelled from the spec: `config.ReceiverByName` (package `pkg/config`,
not among the sources).  Lookup is by exact name match against the
configured receivers; `none` when the name is absent, no default
receiver. -/
def Config.receiverByName (c : Config) (name : String) : Option ReceiverConfig :=
  c.receivers.find? (fun r => r.name == name)

/-- Modelled from the spec: `Alerts.Firing` (package `pkg/alertmanager`,
not among the sources).  Produces the subsequence of alerts whose status
is "firing"; resolved alerts are dropped. -/
def firing (alerts : List Alert) : List Alert :=
  alerts.filter (fun a => a.status == "firing")

/-- main.go: `const unknownReceiver = "<unknown>"`, the sentinel receiver
label used in diagnostics and metrics when routing never completed. -/
def unknownReceiver : String := "<unknown>"

/-- Outcome of `json.NewDecoder(req.Body).Decode(&data)` in the handler.
The Go decoder writes into the `data` struct in place, so when decoding
fails the fields that were decoded before the error point remain set in
`data`; the handler then passes that same value to `errorHandler`.  The
`fail` constructor therefore carries the partially decoded batch (the
zero value `Data "" [] []` when nothing was decoded) together with the
decode error text. -/
inductive DecodeResult where
  | ok (data : Data)
  | fail (partData : Data) (err : String)
  deriving DecidableEq, Repr

/-- Modelled from the spec: the behaviour the NotifierGateway (package
`pkg/notify`, not among the sources) exhibits for one request.
`notify.NewReceiver(conf, tmpl)` may fail — a construction failure —
and otherwise yields a receiver whose `Notify(&data, logger)` returns
`(retry, err)`: `err = nil` is success, otherwise a delivery failure
carrying the retryable flag. -/
inductive GatewayBehavior where
  | constructionFailure (err : String)
  | deliverySuccess
  | deliveryFailure (retry : Bool) (err : String)
  deriving DecidableEq, Repr

/-- The JSON response envelope written by `errorHandler`:
`{Error bool; Status int; Message string}`. -/
structure Envelope where
  error : Bool
  status : Nat
  message : String
  deriving DecidableEq, Repr

/-- One diagnostic record, the error log line of `errorHandler`:
status code, error text, receiver label and the group labels of the
batch it was handed. -/
structure LogRecord where
  statusCode : Nat
  errText : String
  receiver : String
  groupLabels : List (String × String)
  deriving DecidableEq, Repr

/-- Everything one request observably produces: the HTTP status of the
response, its body (the JSON envelope when one was written, `none` when
the handler wrote nothing and the transport defaults to an empty body),
the metrics increments `(receiver label, stringified status)`, the
diagnostic records, the number of warning log lines from the filter
step, whether the NotifierGateway was invoked (`notify.NewReceiver`
reached) and the batch passed to `Notify` when it was called. -/
structure HandlerResult where
  status : Nat
  body : Option Envelope
  metrics : List (String × String)
  diagnostics : List LogRecord
  warnings : Nat
  gatewayInvoked : Bool
  notifyData : Option Data
  deriving DecidableEq, Repr

/-- main.go `errorHandler` (lines 126-145): writes the HTTP status via
`WriteHeader`, marshals the envelope `{true, status, err.Error()}` as the
body, emits one diagnostic record (status, error text, receiver label,
group labels of the batch) and increments the request counter once with
`(receiver, strconv.FormatInt(status))`. -/
def errorHandler (status : Nat) (err : String) (receiver : String) (data : Data) :
    HandlerResult :=
  { status := status
    body := some { error := true, status := status, message := err }
    metrics := [(receiver, toString status)]
    diagnostics := [{ statusCode := status, errText := err,
                      receiver := receiver, groupLabels := data.groupLabels }]
    warnings := 0
    gatewayInvoked := false
    notifyData := none }

/-- The notification step of the `/alert` handler (main.go lines 88-106):
when the batch still holds alerts, `notify.NewReceiver` is invoked; a
construction failure is surfaced through `errorHandler` with status 500,
a delivery failure with 503 when retryable and 500 otherwise, while on
success the handler writes nothing (implicit 200, empty body) and counts
`(conf.Name, "200")`.  When the batch holds no alerts the gateway is not
invoked at all and the no-op success is counted the same way.  `w` is the
number of warning lines the filter step already emitted. -/
def dispatchNotify (conf : ReceiverConfig) (data : Data) (w : Nat)
    (gw : GatewayBehavior) : HandlerResult :=
  if 0 < data.alerts.length then
    match gw with
    | .constructionFailure e =>
        { errorHandler 500 e conf.name data with
            warnings := w, gatewayInvoked := true }
    | .deliveryFailure retry e =>
        { errorHandler (if retry then 503 else 500) e conf.name data with
            warnings := w, gatewayInvoked := true, notifyData := some data }
    | .deliverySuccess =>
        { status := 200, body := none, metrics := [(conf.name, "200")]
          diagnostics := [], warnings := w
          gatewayInvoked := true, notifyData := some data }
  else
    { status := 200, body := none, metrics := [(conf.name, "200")]
      diagnostics := [], warnings := w
      gatewayInvoked := false, notifyData := none }

/-- The filter step of the `/alert` handler (main.go lines 82-86): the
firing subset is computed; only when it is strictly smaller than the
batch is a warning logged and `data.Alerts` replaced by the subset.
Control then moves to the notification step. -/
def dispatch (conf : ReceiverConfig) (data : Data) (gw : GatewayBehavior) :
    HandlerResult :=
  let alerts := firing data.alerts
  if alerts.length < data.alerts.length then
    dispatchNotify conf { data with alerts := alerts } 1 gw
  else
    dispatchNotify conf data 0 gw

/-- The `/alert` handler of main.go (lines 64-107): decode the body
(short-circuiting to a 400 through `errorHandler` with the sentinel
receiver label and the partially decoded batch), route the receiver name
(short-circuiting to a 404 `receiver missing: <name>` with the sentinel
label), then filter and notify. -/
def handleAlert (config : Config) (decoded : DecodeResult)
    (gw : GatewayBehavior) : HandlerResult :=
  match decoded with
  | .fail partData e => errorHandler 400 e unknownReceiver partData
  | .ok data =>
      match config.receiverByName data.receiver with
      | none => errorHandler 404 ("receiver missing: " ++ data.receiver)
          unknownReceiver data
      | some conf => dispatch conf data gw

/-- A plain HTTP response: status code and textual body. -/
structure HttpResponse where
  status : Nat
  body : String
  deriving DecidableEq, Repr

/-- Go standard library `http.Error(w, msg, code)`: sets the status code
and writes the message followed by a newline (`fmt.Fprintln`). -/
def httpError (msg : String) (code : Nat) : HttpResponse :=
  { status := code, body := msg ++ "\n" }

/-- The `/healthz` handler of main.go (line 111):
`http.Error(w, "OK", http.StatusOK)`. -/
def healthzHandler : HttpResponse :=
  httpError "OK" 200

/-- The receiver label the metrics increment of a completed request is
keyed by, per the spec: the matched receiver's name once routing
completed, otherwise the unknown-receiver sentinel. -/
def metricsLabel (config : Config) (decoded : DecodeResult) : String :=
  match decoded with
  | .fail _ _ => unknownReceiver
  | .ok data =>
      match config.receiverByName data.receiver with
      | none => unknownReceiver
      | some conf => conf.name

/-- Example receiver configuration named "team-a". -/
def teamA : ReceiverConfig :=
  { name := "team-a", params := [("project", "TEAM")] }

/-- Example configuration holding only "team-a". -/
def cfgEx : Config := { receivers := [teamA] }

/-- Example firing alert. -/
def firingAlert : Alert :=
  { status := "firing", labels := [("alertname", "HighLoad")]
    annotations := [("summary", "load")], startsAt := "t0", endsAt := "" }

/-- Example resolved alert. -/
def resolvedAlert : Alert :=
  { status := "resolved", labels := [("alertname", "HighLoad")]
    annotations := [], startsAt := "t0", endsAt := "t1" }

/-- Example batch for "team-a" with one firing alert. -/
def dataEx : Data :=
  { receiver := "team-a", groupLabels := [("job", "node")]
    alerts := [firingAlert] }

/-- Example batch for "team-a" holding only a resolved alert, so its
firing subset is empty. -/
def dataResolved : Data :=
  { receiver := "team-a", groupLabels := [("job", "node")]
    alerts := [resolvedAlert] }

/-- Example batch naming the unconfigured receiver "ghost-team". -/
def dataGhost : Data :=
  { receiver := "ghost-team", groupLabels := [], alerts := [firingAlert] }

/-- Example partially decoded batch: the group labels were decoded
before the decode error hit, the rest never was. -/
def partEx : Data :=
  { receiver := "", groupLabels := [("alertname", "HighLoad")], alerts := [] }

/-- A batch with a nonempty firing subset is itself nonempty. -/
lemma alerts_ne_of_firing_ne {l : List Alert} (h : firing l ≠ []) : l ≠ [] := by
  intro he
  subst he
  exact h rfl

/-- C3: a well-formed payload whose receiver name is not configured is
answered with exactly HTTP 404 and the message
"receiver missing: name"; the diagnostic record and the metrics
increment use the sentinel label "unknown", not the payload's name. -/
theorem unknown_receiver_404 (config : Config) (data : Data)
    (gw : GatewayBehavior)
    (hroute : config.receiverByName data.receiver = none) :
    (handleAlert config (.ok data) gw).status = 404
    ∧ (handleAlert config (.ok data) gw).body
        = some { error := true, status := 404
                 message := "receiver missing: " ++ data.receiver }
    ∧ (handleAlert config (.ok data) gw).metrics = [(unknownReceiver, "404")]
    ∧ (handleAlert config (.ok data) gw).diagnostics
        = [{ statusCode := 404
             errText := "receiver missing: " ++ data.receiver
             receiver := unknownReceiver, groupLabels := data.groupLabels }] := by
  simp only [handleAlert]
  rw [hroute]
  exact ⟨rfl, rfl, rfl, rfl⟩

/-- C3 witness: the batch for "ghost-team" against the configuration
holding only "team-a". -/
theorem unknown_receiver_404_witness :
    cfgEx.receiverByName dataGhost.receiver = none
    ∧ ((handleAlert cfgEx (.ok dataGhost) .deliverySuccess).status = 404
      ∧ (handleAlert cfgEx (.ok dataGhost) .deliverySuccess).body
          = some { error := true, status := 404
                   message := "receiver missing: " ++ dataGhost.receiver }
      ∧ (handleAlert cfgEx (.ok dataGhost) .deliverySuccess).metrics
          = [(unknownReceiver, "404")]
      ∧ (handleAlert cfgEx (.ok dataGhost) .deliverySuccess).diagnostics
          = [{ statusCode := 404
               errText := "receiver missing: " ++ dataGhost.receiver
               receiver := unknownReceiver
               groupLabels := dataGhost.groupLabels }]) :=
  ⟨by decide, unknown_receiver_404 cfgEx dataGhost .deliverySuccess (by decide)⟩

/-- C4: a payload that fails decoding is answered with exactly HTTP 400,
the NotifierGateway is never invoked, and the outcome does not depend on
the configuration or on the gateway: the pipeline short-circuits before
routing and filtering. -/
theorem decode_failure_400 (config config2 : Config) (d : Data) (e : String)
    (gw gw2 : GatewayBehavior) :
    (handleAlert config (.fail d e) gw).status = 400
    ∧ (handleAlert config (.fail d e) gw).gatewayInvoked = false
    ∧ (handleAlert config (.fail d e) gw).notifyData = none
    ∧ handleAlert config (.fail d e) gw = handleAlert config2 (.fail d e) gw2 :=
  ⟨rfl, rfl, rfl, rfl⟩

/-- The notification step on a batch that still holds alerts reduces to
the branch selected by the gateway behaviour. -/
lemma dispatchNotify_pos (conf : ReceiverConfig) (d : Data) (w : Nat)
    (gw : GatewayBehavior) (h : d.alerts ≠ []) :
    dispatchNotify conf d w gw
      = match gw with
        | .constructionFailure e =>
            { errorHandler 500 e conf.name d with
                warnings := w, gatewayInvoked := true }
        | .deliveryFailure retry e =>
            { errorHandler (if retry then 503 else 500) e conf.name d with
                warnings := w, gatewayInvoked := true, notifyData := some d }
        | .deliverySuccess =>
            { status := 200, body := none, metrics := [(conf.name, "200")]
              diagnostics := [], warnings := w
              gatewayInvoked := true, notifyData := some d } := by
  unfold dispatchNotify
  rw [if_pos (List.length_pos.mpr h)]

/-- The filter step on a batch with a nonempty firing subset hands the
notification step a nonempty batch carrying the original group labels,
independently of the gateway behaviour. -/
lemma dispatch_pos (conf : ReceiverConfig) (data : Data)
    (h : firing data.alerts ≠ []) :
    ∃ d : Data, d.groupLabels = data.groupLabels ∧ d.alerts ≠ []
      ∧ ∀ gw : GatewayBehavior,
          dispatch conf data gw
            = dispatchNotify conf d
                (if (firing data.alerts).length < data.alerts.length
                  then 1 else 0) gw := by
  by_cases hd : (firing data.alerts).length < data.alerts.length
  · refine ⟨{ data with alerts := firing data.alerts }, rfl, h, ?_⟩
    intro gw
    simp only [dispatch, if_pos hd]
  · refine ⟨data, rfl, alerts_ne_of_firing_ne h, ?_⟩
    intro gw
    simp only [dispatch, if_neg hd]

/-- The filter-and-notify steps on a batch whose firing subset is empty:
the gateway is never reached and the request is counted as a 200 no-op
success, whatever the gateway would have done. -/
lemma dispatch_empty (conf : ReceiverConfig) (data : Data)
    (gw : GatewayBehavior) (h : firing data.alerts = []) :
    dispatch conf data gw
      = { status := 200, body := none, metrics := [(conf.name, "200")]
          diagnostics := [], warnings := if data.alerts = [] then 0 else 1
          gatewayInvoked := false, notifyData := none } := by
  rcases eq_or_ne data.alerts [] with h0 | h0
  · simp [dispatch, dispatchNotify, h, h0]
  · simp only [dispatch, h, List.length_nil,
      if_pos (List.length_pos.mpr h0), if_neg h0]
    simp [dispatchNotify]

/-- C1: failure classification on the dispatch path is total,
deterministic and fixes the response status (the embedding is a
function, so one failure value always classifies the same way): a
retryable delivery failure is answered 503, a non-retryable one 500, and
a gateway construction failure is always non-retryable (500), surfaced
through the same failure path — the same envelope shape — as a delivery
failure. -/
theorem failure_classification_fixed (config : Config) (data : Data)
    (conf : ReceiverConfig) (e : String) (retry : Bool)
    (hroute : config.receiverByName data.receiver = some conf)
    (h : firing data.alerts ≠ []) :
    (handleAlert config (.ok data) (.deliveryFailure retry e)).status
        = (if retry then 503 else 500)
    ∧ (handleAlert config (.ok data) (.deliveryFailure retry e)).body
        = some { error := true, status := if retry then 503 else 500
                 message := e }
    ∧ (handleAlert config (.ok data) (.constructionFailure e)).status = 500
    ∧ (handleAlert config (.ok data) (.constructionFailure e)).body
        = some { error := true, status := 500, message := e }
    ∧ (handleAlert config (.ok data) (.constructionFailure e)).body
        = (handleAlert config (.ok data) (.deliveryFailure false e)).body := by
  obtain ⟨d, hgl, hne, hdis⟩ := dispatch_pos conf data h
  simp only [handleAlert]
  rw [hroute]
  dsimp only
  rw [hdis, hdis, hdis, dispatchNotify_pos _ _ _ _ hne,
    dispatchNotify_pos _ _ _ _ hne, dispatchNotify_pos _ _ _ _ hne]
  exact ⟨rfl, rfl, rfl, rfl, rfl⟩

/-- C1 witness: "team-a" routed, one firing alert, retryable delivery
failure "boom". -/
theorem failure_classification_fixed_witness :
    (cfgEx.receiverByName dataEx.receiver = some teamA
      ∧ firing dataEx.alerts ≠ [])
    ∧ ((handleAlert cfgEx (.ok dataEx) (.deliveryFailure true "boom")).status
          = (if true then 503 else 500)
      ∧ (handleAlert cfgEx (.ok dataEx) (.deliveryFailure true "boom")).body
          = some { error := true, status := if true then 503 else 500
                   message := "boom" }
      ∧ (handleAlert cfgEx (.ok dataEx) (.constructionFailure "boom")).status
          = 500
      ∧ (handleAlert cfgEx (.ok dataEx) (.constructionFailure "boom")).body
          = some { error := true, status := 500, message := "boom" }
      ∧ (handleAlert cfgEx (.ok dataEx) (.constructionFailure "boom")).body
          = (handleAlert cfgEx
              (.ok dataEx) (.deliveryFailure false "boom")).body) :=
  ⟨⟨by decide, by decide⟩,
    failure_classification_fixed cfgEx dataEx teamA "boom" true
      (by decide) (by decide)⟩

/-- C2: a decoded batch whose firing subset after filtering is empty
(including a batch with zero alerts) never reaches the NotifierGateway
and completes as a 200 success with an empty body, independently of the
gateway behaviour. -/
theorem empty_firing_noop (config : Config) (data : Data)
    (conf : ReceiverConfig) (gw gw2 : GatewayBehavior)
    (hroute : config.receiverByName data.receiver = some conf)
    (h : firing data.alerts = []) :
    (handleAlert config (.ok data) gw).status = 200
    ∧ (handleAlert config (.ok data) gw).gatewayInvoked = false
    ∧ (handleAlert config (.ok data) gw).notifyData = none
    ∧ (handleAlert config (.ok data) gw).body = none
    ∧ (handleAlert config (.ok data) gw).metrics = [(conf.name, "200")]
    ∧ handleAlert config (.ok data) gw = handleAlert config (.ok data) gw2 := by
  simp only [handleAlert]
  rw [hroute]
  dsimp only
  rw [dispatch_empty _ _ _ h, dispatch_empty _ _ _ h]
  exact ⟨rfl, rfl, rfl, rfl, rfl, rfl⟩

/-- C2 witness: a batch for "team-a" holding only a resolved alert. -/
theorem empty_firing_noop_witness :
    (cfgEx.receiverByName dataResolved.receiver = some teamA
      ∧ firing dataResolved.alerts = [])
    ∧ ((handleAlert cfgEx (.ok dataResolved) .deliverySuccess).status = 200
      ∧ (handleAlert cfgEx
          (.ok dataResolved) .deliverySuccess).gatewayInvoked = false
      ∧ (handleAlert cfgEx
          (.ok dataResolved) .deliverySuccess).notifyData = none
      ∧ (handleAlert cfgEx (.ok dataResolved) .deliverySuccess).body = none
      ∧ (handleAlert cfgEx (.ok dataResolved) .deliverySuccess).metrics
          = [(teamA.name, "200")]
      ∧ handleAlert cfgEx (.ok dataResolved) .deliverySuccess
          = handleAlert cfgEx
              (.ok dataResolved) (.constructionFailure "nope")) :=
  ⟨⟨by decide, by decide⟩,
    empty_firing_noop cfgEx dataResolved teamA
      .deliverySuccess (.constructionFailure "nope") (by decide) (by decide)⟩

/-- Exhaustive shape of one request's outcome: either a 200 success that
writes no body, counts the routed receiver under "200" and records no
diagnostic, or an errorHandler-produced failure with a non-200 status
whose metrics and diagnostics use the best-available receiver label. -/
lemma handleAlert_cases (config : Config) (decoded : DecodeResult)
    (gw : GatewayBehavior) :
    (∃ w : Nat, ∃ inv : Bool, ∃ nd : Option Data,
      handleAlert config decoded gw
        = { status := 200, body := none
            metrics := [(metricsLabel config decoded, "200")]
            diagnostics := [], warnings := w
            gatewayInvoked := inv, notifyData := nd })
    ∨ (∃ s : Nat, ∃ e : String, ∃ d : Data, ∃ w : Nat, ∃ inv : Bool,
        ∃ nd : Option Data, s ≠ 200
        ∧ handleAlert config decoded gw
            = { errorHandler s e (metricsLabel config decoded) d with
                warnings := w, gatewayInvoked := inv, notifyData := nd }) := by
  cases decoded with
  | fail d e =>
      right
      exact ⟨400, e, d, 0, false, none, by decide, rfl⟩
  | ok data =>
      have hml := rfl (a := metricsLabel config (.ok data))
      rcases hr : config.receiverByName data.receiver with _ | conf
      · right
        refine ⟨404, "receiver missing: " ++ data.receiver, data, 0, false,
          none, by decide, ?_⟩
        simp only [handleAlert, metricsLabel]
        rw [hr]
        rfl
      · have hml : metricsLabel config (.ok data) = conf.name := by
          simp only [metricsLabel]
          rw [hr]
        rcases eq_or_ne (firing data.alerts) [] with hemp | hne
        · left
          refine ⟨if data.alerts = [] then 0 else 1, false, none, ?_⟩
          simp only [handleAlert]
          rw [hr]
          dsimp only
          rw [dispatch_empty _ _ _ hemp, hml]
        · obtain ⟨d, hgl, hdne, hdis⟩ := dispatch_pos conf data hne
          have hred : handleAlert config (.ok data) gw
              = dispatchNotify conf d
                  (if (firing data.alerts).length < data.alerts.length
                    then 1 else 0) gw := by
            simp only [handleAlert]
            rw [hr]
            dsimp only
            rw [hdis]
          rw [hred, dispatchNotify_pos _ _ _ _ hdne]
          cases gw with
          | deliverySuccess =>
              left
              refine ⟨if (firing data.alerts).length < data.alerts.length
                then 1 else 0, true, some d, ?_⟩
              rw [hml]
          | constructionFailure e =>
              right
              refine ⟨500, e, d,
                if (firing data.alerts).length < data.alerts.length
                  then 1 else 0, true, none, by decide, ?_⟩
              rw [hml]
              rfl
          | deliveryFailure retry e =>
              right
              refine ⟨if retry then 503 else 500, e, d,
                if (firing data.alerts).length < data.alerts.length
                  then 1 else 0, true, some d, ?_, ?_⟩
              · cases retry <;> decide
              · rw [hml]

/-- C5 counterexample: a successful dispatch for "team-a" completes with
HTTP status 200 while the handler writes no body at all — the response
body is not the envelope with error false, status 200 and empty
message. -/
theorem success_body_not_envelope :
    (handleAlert cfgEx (.ok dataEx) .deliverySuccess).status = 200
    ∧ (handleAlert cfgEx (.ok dataEx) .deliverySuccess).body = none
    ∧ (handleAlert cfgEx (.ok dataEx) .deliverySuccess).body
        ≠ some { error := false, status := 200, message := "" } := by
  decide

/-- C5 (amended): every response of the alert handler either is a
success — HTTP status 200 with no envelope written, an empty body — or
carries the JSON envelope, whose error flag is true and whose status
field mirrors the non-200 HTTP status; a successful dispatch in
particular is answered 200 with an empty body. -/
theorem response_envelope_shape (config : Config) (decoded : DecodeResult)
    (gw : GatewayBehavior) :
    ((handleAlert config decoded gw).status = 200
      ∧ (handleAlert config decoded gw).body = none)
    ∨ (∃ env : Envelope, (handleAlert config decoded gw).body = some env
        ∧ env.error = true
        ∧ env.status = (handleAlert config decoded gw).status
        ∧ (handleAlert config decoded gw).status ≠ 200) := by
  rcases handleAlert_cases config decoded gw with
    ⟨w, inv, nd, he⟩ | ⟨s, e, d, w, inv, nd, hs, he⟩
  · left
    rw [he]
    exact ⟨rfl, rfl⟩
  · right
    rw [he]
    exact ⟨{ error := true, status := s, message := e }, rfl, rfl, rfl, hs⟩

/-- C6 counterexample: decoding fails after the group labels were
decoded; the diagnostic record of the 400 outcome observes exactly those
partially decoded group labels, so a field decoded before the failure
point is retained and observed by a later stage. -/
theorem partial_decode_observed :
    partEx.groupLabels ≠ []
    ∧ (handleAlert cfgEx
        (.fail partEx "json: cannot unmarshal alerts")
        .deliverySuccess).diagnostics
      = [{ statusCode := 400, errText := "json: cannot unmarshal alerts"
           receiver := unknownReceiver
           groupLabels := [("alertname", "HighLoad")] }] := by
  decide

/-- C6 (amended): on decode failure the request short-circuits to a 400
through `errorHandler` — no routing, filtering or gateway invocation,
outcome independent of the configuration and the gateway — but the
handler passes the partially decoded batch on, and the diagnostic record
observes its group labels. -/
theorem decode_failure_partial_diagnostics (config : Config) (d : Data)
    (e : String) (gw : GatewayBehavior) :
    handleAlert config (.fail d e) gw = errorHandler 400 e unknownReceiver d
    ∧ (handleAlert config (.fail d e) gw).diagnostics
        = [{ statusCode := 400, errText := e, receiver := unknownReceiver
             groupLabels := d.groupLabels }]
    ∧ (handleAlert config (.fail d e) gw).gatewayInvoked = false :=
  ⟨rfl, rfl, rfl⟩

/-- C7: every completed request increments the request counter exactly
once, keyed by the stringified response status and by the best-available
receiver label — the matched receiver's name once routing completed, the
sentinel otherwise. -/
theorem metrics_incremented_once (config : Config) (decoded : DecodeResult)
    (gw : GatewayBehavior) :
    (handleAlert config decoded gw).metrics
      = [(metricsLabel config decoded,
          toString (handleAlert config decoded gw).status)] := by
  rcases handleAlert_cases config decoded gw with
    ⟨w, inv, nd, he⟩ | ⟨s, e, d, w, inv, nd, hs, he⟩
  · rw [he]
    show [(metricsLabel config decoded, "200")]
      = [(metricsLabel config decoded, toString (200 : Nat))]
    rw [show toString (200 : Nat) = "200" from rfl]
  · rw [he]
    rfl

/-- C8: alert filtering is idempotent — a batch whose alerts all have
status "firing" is left unchanged by the firing filter: the same alert
sequence. -/
theorem firing_filter_idempotent (xs : List Alert)
    (h : ∀ a ∈ xs, a.status = "firing") :
    firing xs = xs := by
  simp only [firing]
  exact List.filter_eq_self.mpr (fun a ha => by simp [h a ha])

/-- C8 witness: the one-alert all-firing batch. -/
theorem firing_filter_idempotent_witness :
    (∀ a ∈ [firingAlert], a.status = "firing")
    ∧ firing [firingAlert] = [firingAlert] :=
  ⟨by decide, firing_filter_idempotent [firingAlert] (by decide)⟩

/-- C9 counterexample: the healthz handler answers HTTP 200, but its
body is "OK" followed by a newline — `http.Error` writes the message
with `fmt.Fprintln` — not exactly "OK". -/
theorem healthz_body_not_exactly_ok :
    healthzHandler.status = 200 ∧ healthzHandler.body ≠ "OK" := by
  decide

/-- C9 (amended): every healthz request is answered with HTTP status 200
and body "OK" followed by a newline. -/
theorem healthz_ok_with_newline :
    healthzHandler.status = 200 ∧ healthzHandler.body = "OK\n" := by
  decide

/-- C10: envelope consistency of the error path — whenever a response
carries an envelope, the envelope was written by `errorHandler`: its
error flag is true, its status equals the HTTP status set on the
response, that status is never 200, and its message is the failure's
error text, the same text the diagnostic record carries. -/
theorem envelope_error_consistency (config : Config) (decoded : DecodeResult)
    (gw : GatewayBehavior) (env : Envelope)
    (h : (handleAlert config decoded gw).body = some env) :
    env.error = true
    ∧ env.status = (handleAlert config decoded gw).status
    ∧ (handleAlert config decoded gw).status ≠ 200
    ∧ (handleAlert config decoded gw).diagnostics.map LogRecord.errText
        = [env.message] := by
  rcases handleAlert_cases config decoded gw with
    ⟨w, inv, nd, he⟩ | ⟨s, e, d, w, inv, nd, hs, he⟩
  · rw [he] at h
    exact absurd h (by simp)
  · rw [he] at h ⊢
    have h2 : some (Envelope.mk true s e) = some env := h
    have h3 : Envelope.mk true s e = env := by
      injection h2
    rw [← h3]
    exact ⟨rfl, rfl, hs, rfl⟩

/-- C10 witness: the 404 outcome for the unconfigured receiver
"ghost-team". -/
theorem envelope_error_consistency_witness :
    (handleAlert cfgEx (.ok dataGhost) .deliverySuccess).body
        = some { error := true, status := 404
                 message := "receiver missing: ghost-team" }
    ∧ ((Envelope.mk true 404 "receiver missing: ghost-team").error = true
      ∧ (Envelope.mk true 404 "receiver missing: ghost-team").status
          = (handleAlert cfgEx (.ok dataGhost) .deliverySuccess).status
      ∧ (handleAlert cfgEx (.ok dataGhost) .deliverySuccess).status ≠ 200
      ∧ (handleAlert cfgEx
            (.ok dataGhost) .deliverySuccess).diagnostics.map LogRecord.errText
          = [(Envelope.mk true 404 "receiver missing: ghost-team").message]) :=
  ⟨by decide,
    envelope_error_consistency cfgEx (.ok dataGhost) .deliverySuccess
      (Envelope.mk true 404 "receiver missing: ghost-team") (by decide)⟩
